import Mathlib

/-!
Verification of the Dockit repository: a Flask server
(`schema-extraction-server.py`) that maps exam names to fixed document
requirement templates, and an ONNX export script (`scripts/export-onnx.py`).

JSON values are embedded as an inductive type; Python string operations
(`lower`, `strip`, `split`, `capitalize`, `replace`, substring `in`) are
modelled explicitly over character lists; `datetime.now().isoformat()` is
passed as an explicit `now : String` parameter; the request handler's
catch-all `except` is modelled by an explicit flag saying whether an
exception is raised in the region after the missing-input check.
-/

/-- A JSON value, as produced by `jsonify`. -/
inductive Json where
  | str : String → Json
  | num : Nat → Json
  | bool : Bool → Json
  | arr : List Json → Json
  | obj : List (String × Json) → Json

/-- Keys of a JSON object, in order; `[]` for non-objects. -/
def Json.keys : Json → List String
  | Json.obj fields => fields.map Prod.fst
  | _ => []

/-- Association-list lookup used to model dictionary access on JSON objects. -/
def lookupKey : List (String × Json) → String → Option Json
  | [], _ => none
  | (k, v) :: t, key => if k = key then some v else lookupKey t key

/-- Field access on a JSON object: `j[key]` when present. -/
def Json.objGet : Json → String → Option Json
  | Json.obj fields, key => lookupKey fields key
  | _, _ => none

/-- Python `dict.get(key, default)` on a JSON object body. -/
def dictGetD (data : List (String × Json)) (key : String) (dflt : Json) : Json :=
  match lookupKey data key with
  | some v => v
  | none => dflt

/-- Characters stripped by Python `str.strip()` with no argument (ASCII part). -/
def pyIsSpace (c : Char) : Bool :=
  c = ' ' || c = '\t' || c = '\n' || c = '\x0d' || c = '\x0b' || c = '\x0c'

/-- Python `str.strip()`: remove leading and trailing whitespace. -/
def pyStrip (s : String) : String :=
  String.mk (((s.data.dropWhile pyIsSpace).reverse.dropWhile pyIsSpace).reverse)

/-- Python `str.lower()` (ASCII). -/
def pyLower (s : String) : String :=
  String.mk (s.data.map Char.toLower)

/-- Python single-character `str.replace(a, b)`. -/
def pyReplaceChar (s : String) (a b : Char) : String :=
  String.mk (s.data.map fun c => if c = a then b else c)

/-- Helper for `pySplit`: split a character list on runs of whitespace,
accumulating the current word in reverse. -/
def splitWsAux : List Char → List Char → List (List Char)
  | [], [] => []
  | [], acc => [acc.reverse]
  | c :: cs, acc =>
    if pyIsSpace c then
      match acc with
      | [] => splitWsAux cs []
      | _ :: _ => acc.reverse :: splitWsAux cs []
    else splitWsAux cs (c :: acc)

/-- Python `str.split()` with no argument: split on whitespace runs,
discarding empty pieces. -/
def pySplit (s : String) : List String :=
  (splitWsAux s.data []).map String.mk

/-- Python `str.capitalize()`: first character uppercased, the rest
lowercased (ASCII). -/
def pyCapitalize (w : String) : String :=
  match w.data with
  | [] => ""
  | c :: rest => String.mk (Char.toUpper c :: rest.map Char.toLower)

/-- Boolean test that `p` begins the list `l`. -/
def beginsWith : List Char → List Char → Bool
  | [], _ => true
  | _ :: _, [] => false
  | p :: ps, c :: cs => p == c && beginsWith ps cs

/-- Boolean substring containment on character lists: `sub` occurs in `l`. -/
def containsSub (sub : List Char) : List Char → Bool
  | [] => beginsWith sub []
  | c :: cs => beginsWith sub (c :: cs) || containsSub sub cs

/-- Python `sub in s` on strings. -/
def strContains (s sub : String) : Bool :=
  containsSub sub.data s.data

/-- The normalization of the exam name performed at the top of
`generate_fallback_schema`: hyphens and underscores become spaces, the
string is split on whitespace, each word is capitalized, and the words are
joined with single spaces. -/
def normalizeExamName (exam_name : String) : String :=
  String.intercalate " "
    ((pySplit (pyReplaceChar (pyReplaceChar exam_name '-' ' ') '_' ' ')).map pyCapitalize)

/-- The banking requirement template (IBPS, SBI, etc.), lines 24 to 56 of
`schema-extraction-server.py`. -/
def bankingRequirements : Json :=
  Json.arr [
    Json.obj [
      ("type", Json.str "photograph"),
      ("requirements", Json.obj [
        ("format", Json.arr [Json.str "JPG", Json.str "JPEG"]),
        ("size_kb", Json.obj [("min", Json.num 20), ("max", Json.num 50)]),
        ("dimensions", Json.str "200x230 pixels"),
        ("color", Json.str "color"),
        ("background", Json.str "light"),
        ("notes", Json.arr [Json.str "Recent colored photograph",
          Json.str "Passport size", Json.str "Clear face visibility"])])],
    Json.obj [
      ("type", Json.str "signature"),
      ("requirements", Json.obj [
        ("format", Json.arr [Json.str "JPG", Json.str "JPEG"]),
        ("size_kb", Json.obj [("min", Json.num 10), ("max", Json.num 20)]),
        ("dimensions", Json.str "140x60 pixels"),
        ("background", Json.str "white"),
        ("notes", Json.arr [Json.str "Clear signature in black ink",
          Json.str "Sign on white paper"])])],
    Json.obj [
      ("type", Json.str "thumb_impression"),
      ("requirements", Json.obj [
        ("format", Json.arr [Json.str "JPG", Json.str "JPEG"]),
        ("size_kb", Json.obj [("min", Json.num 10), ("max", Json.num 20)]),
        ("dimensions", Json.str "240x240 pixels"),
        ("background", Json.str "white"),
        ("notes", Json.arr [Json.str "Left thumb impression",
          Json.str "Clear impression on white paper"])])]]

/-- The SSC requirement template, lines 60 to 82. -/
def sscRequirements : Json :=
  Json.arr [
    Json.obj [
      ("type", Json.str "photograph"),
      ("requirements", Json.obj [
        ("format", Json.arr [Json.str "JPEG"]),
        ("size_kb", Json.obj [("min", Json.num 4), ("max", Json.num 40)]),
        ("dimensions", Json.str "3.5x4.5 cm"),
        ("color", Json.str "color"),
        ("background", Json.str "light"),
        ("notes", Json.arr [Json.str "Recent colored photograph",
          Json.str "Passport size"])])],
    Json.obj [
      ("type", Json.str "signature"),
      ("requirements", Json.obj [
        ("format", Json.arr [Json.str "JPEG"]),
        ("size_kb", Json.obj [("min", Json.num 1), ("max", Json.num 12)]),
        ("dimensions", Json.str "4x2 cm"),
        ("background", Json.str "white"),
        ("notes", Json.arr [Json.str "Clear signature in black ink"])])]]

/-- The medical/engineering requirement template (NEET, JEE, GATE),
lines 86 to 107. -/
def medicalEngineeringRequirements : Json :=
  Json.arr [
    Json.obj [
      ("type", Json.str "photograph"),
      ("requirements", Json.obj [
        ("format", Json.arr [Json.str "JPG", Json.str "JPEG"]),
        ("size_kb", Json.obj [("min", Json.num 10), ("max", Json.num 200)]),
        ("dimensions", Json.str "Passport size"),
        ("color", Json.str "color"),
        ("background", Json.str "white"),
        ("notes", Json.arr [Json.str "Recent photograph",
          Json.str "Face should be clearly visible",
          Json.str "No sunglasses or hat"])])],
    Json.obj [
      ("type", Json.str "signature"),
      ("requirements", Json.obj [
        ("format", Json.arr [Json.str "JPG", Json.str "JPEG"]),
        ("size_kb", Json.obj [("min", Json.num 4), ("max", Json.num 30)]),
        ("background", Json.str "white"),
        ("notes", Json.arr [Json.str "Clear signature in blue or black ink"])])]]

/-- The UPSC/Civil Services requirement template, lines 111 to 133. -/
def upscRequirements : Json :=
  Json.arr [
    Json.obj [
      ("type", Json.str "photograph"),
      ("requirements", Json.obj [
        ("format", Json.arr [Json.str "JPG", Json.str "JPEG"]),
        ("size_kb", Json.obj [("min", Json.num 3), ("max", Json.num 50)]),
        ("dimensions", Json.str "5x7 cm"),
        ("color", Json.str "color"),
        ("background", Json.str "white"),
        ("notes", Json.arr [Json.str "Recent photograph",
          Json.str "Professional attire preferred",
          Json.str "Clear face visibility"])])],
    Json.obj [
      ("type", Json.str "signature"),
      ("requirements", Json.obj [
        ("format", Json.arr [Json.str "JPG", Json.str "JPEG"]),
        ("size_kb", Json.obj [("min", Json.num 1), ("max", Json.num 10)]),
        ("dimensions", Json.str "4x2 cm"),
        ("background", Json.str "white"),
        ("notes", Json.arr [Json.str "Signature in black ink",
          Json.str "Sign on white paper"])])]]

/-- The generic requirement template, lines 137 to 157. -/
def genericRequirements : Json :=
  Json.arr [
    Json.obj [
      ("type", Json.str "photograph"),
      ("requirements", Json.obj [
        ("format", Json.arr [Json.str "JPG", Json.str "JPEG", Json.str "PNG"]),
        ("size_kb", Json.obj [("min", Json.num 10), ("max", Json.num 100)]),
        ("dimensions", Json.str "Passport size"),
        ("color", Json.str "color"),
        ("notes", Json.arr [Json.str "Recent photograph",
          Json.str "Clear face visibility"])])],
    Json.obj [
      ("type", Json.str "signature"),
      ("requirements", Json.obj [
        ("format", Json.arr [Json.str "JPG", Json.str "JPEG", Json.str "PNG"]),
        ("size_kb", Json.obj [("min", Json.num 5), ("max", Json.num 50)]),
        ("background", Json.str "white"),
        ("notes", Json.arr [Json.str "Clear signature"])])]]

/-- Embedding of `generate_fallback_schema(exam_name)` from
`schema-extraction-server.py` (lines 14 to 164). `datetime.now().isoformat()`
is passed as the explicit parameter `now`. -/
def generate_fallback_schema (exam_name : String) (now : String) : Json :=
  let normalized_name := normalizeExamName exam_name
  let lower_name := pyLower exam_name
  let requirements :=
    if ["ibps", "bank", "sbi", "rbi"].any (fun keyword => strContains lower_name keyword) then
      bankingRequirements
    else if strContains lower_name "ssc" then
      sscRequirements
    else if ["neet", "jee", "gate"].any (fun keyword => strContains lower_name keyword) then
      medicalEngineeringRequirements
    else if ["upsc", "civil", "ias", "ips"].any (fun keyword => strContains lower_name keyword) then
      upscRequirements
    else
      genericRequirements
  Json.obj [
    ("exam", Json.str normalized_name),
    ("documents", requirements),
    ("extractedFrom", Json.str "Intelligent Fallback System"),
    ("extractedAt", Json.str now)]

/-- An HTTP response: status code and JSON body. -/
structure Response where
  status : Nat
  body : Json

/-- The basic fallback response built in the catch-all `except` branch of
`generate_schema` (lines 198 to 225): HTTP 200 with a minimal schema whose
`exam` field is the raw `data.get('examName', 'Unknown Exam')` value. -/
def exceptResponse (data : List (String × Json)) (now : String) : Response :=
  ⟨200, Json.obj [
    ("success", Json.bool true),
    ("schema", Json.obj [
      ("exam", dictGetD data "examName" (Json.str "Unknown Exam")),
      ("documents", Json.arr [
        Json.obj [
          ("type", Json.str "photograph"),
          ("requirements", Json.obj [
            ("format", Json.arr [Json.str "JPG", Json.str "JPEG"]),
            ("size_kb", Json.obj [("min", Json.num 10), ("max", Json.num 100)]),
            ("dimensions", Json.str "Passport size"),
            ("color", Json.str "color"),
            ("notes", Json.arr [Json.str "Recent photograph"])])]]),
      ("extractedFrom", Json.str "Basic Fallback"),
      ("extractedAt", Json.str now)]),
    ("message", Json.str "Generated basic fallback schema"),
    ("warning", Json.str "Error occurred during generation")]⟩

/-- Embedding of the `POST /api/generate-schema` handler `generate_schema`
(lines 171 to 225). The request body is `data`, a JSON object given as an
association list. A non-string `examName` value makes `.strip()` raise, which
the catch-all `except` turns into the basic fallback response; `postRaises`
models whether an exception is raised in the region after the missing-input
check (e.g. inside `jsonify` or `print`), which the same `except` catches. -/
def generate_schema (data : List (String × Json)) (postRaises : Bool)
    (now : String) : Response :=
  match dictGetD data "examName" (Json.str "") with
  | Json.str raw =>
    let exam_name := pyStrip raw
    if exam_name = "" then
      ⟨400, Json.obj [
        ("success", Json.bool false),
        ("error", Json.str "Exam name is required")]⟩
    else if postRaises then
      exceptResponse data now
    else
      let schema := generate_fallback_schema exam_name now
      let schemaExam :=
        match Json.objGet schema "exam" with
        | some (Json.str e) => e
        | _ => ""
      ⟨200, Json.obj [
        ("success", Json.bool true),
        ("schema", schema),
        ("message", Json.str ("Generated schema for " ++ schemaExam)),
        ("note", Json.str "Using intelligent pattern matching - real web extraction available via Node.js version")]⟩
  | _ => exceptResponse data now

/-- Embedding of the `GET /health` handler `health_check` (lines 227 to 234);
`datetime.now().isoformat()` is the explicit parameter `now`. -/
def health_check (now : String) : Response :=
  ⟨200, Json.obj [
    ("status", Json.str "OK"),
    ("timestamp", Json.str now),
    ("message", Json.str "Schema Extraction Server is running")]⟩

/-- An observable file-system action of the export script
`scripts/export-onnx.py`: an attempted `main_export` call, or a
`Path.touch()` creating an empty file. -/
inductive ScriptOp where
  | exportAttempt : String → String → ScriptOp
  | touch : String → ScriptOp
deriving DecidableEq

/-- Embedding of `export_distilbert()` (lines 24 to 44) as the sequence of
file-system actions it performs; `exportFails` says whether the
`main_export` call raises. On failure the placeholder `distilbert.onnx` is
touched; on success nothing else happens. -/
def export_distilbert (exportFails : Bool) : List ScriptOp :=
  ScriptOp.exportAttempt "distilbert-base-uncased" "public/models/distilbert" ::
    (if exportFails then [ScriptOp.touch "public/models/distilbert.onnx"] else [])

/-- Embedding of `create_layoutlm_placeholder()` (lines 46 to 56): it
unconditionally touches `layoutlm.onnx`, attempting no export. -/
def create_layoutlm_placeholder : List ScriptOp :=
  [ScriptOp.touch "public/models/layoutlm.onnx"]

/-- Embedding of the script's `__main__` block (lines 58 to 63):
`export_distilbert()` then `create_layoutlm_placeholder()`. -/
def scriptMain (exportFails : Bool) : List ScriptOp :=
  export_distilbert exportFails ++ create_layoutlm_placeholder

/-- A file produced by a run of the export script, with a flag saying
whether it is an empty placeholder. -/
structure ProducedFile where
  path : String
  placeholder : Bool
deriving DecidableEq

/-- Files produced by one script action: a successful export writes the
model artifact, a failed export writes nothing itself, and a `touch`
creates an empty placeholder. -/
def opProducedFiles (exportFails : Bool) : ScriptOp → List ProducedFile
  | ScriptOp.exportAttempt _ output =>
    if exportFails then [] else [⟨output, false⟩]
  | ScriptOp.touch path => [⟨path, true⟩]

/-- All files produced by a run of the export script. -/
def runProducedFiles (exportFails : Bool) : List ProducedFile :=
  (scriptMain exportFails).flatMap (opProducedFiles exportFails)

/-- Modelled from the claim wording of C1: the template is chosen by a
linear sequence of substring checks on the lowercased name, in the order
banking, SSC, medical/engineering, UPSC, generic; the first match decides. -/
def chooseRequirementsLinear (lower_name : String) : Json :=
  if strContains lower_name "ibps" || (strContains lower_name "bank" ||
      (strContains lower_name "sbi" || strContains lower_name "rbi")) then
    bankingRequirements
  else if strContains lower_name "ssc" then
    sscRequirements
  else if strContains lower_name "neet" || (strContains lower_name "jee" ||
      strContains lower_name "gate") then
    medicalEngineeringRequirements
  else if strContains lower_name "upsc" || (strContains lower_name "civil" ||
      (strContains lower_name "ias" || strContains lower_name "ips")) then
    upscRequirements
  else
    genericRequirements

/-- Helper: the `documents` field of the generated schema is exactly the
template chosen by the linear substring-check chain on the lowercased name. -/
theorem generate_fallback_schema_documents (exam_name now : String) :
    Json.objGet (generate_fallback_schema exam_name now) "documents" =
      some (chooseRequirementsLinear (pyLower exam_name)) := by
  simp [generate_fallback_schema, chooseRequirementsLinear, Json.objGet, lookupKey,
    List.any, Bool.or_assoc]

/-- Helper: each of the five templates the linear chain can choose is a
JSON array of document entries. -/
theorem chooseRequirementsLinear_isArr (lower : String) :
    ∃ docs, chooseRequirementsLinear lower = Json.arr docs := by
  unfold chooseRequirementsLinear
  repeat' split
  all_goals exact ⟨_, rfl⟩

/-- Helper: Python `str.strip()` of a string consisting only of whitespace
characters is the empty string. -/
theorem pyStrip_all_space (s : String) (h : ∀ c ∈ s.data, pyIsSpace c = true) :
    pyStrip s = "" := by
  have h1 : s.data.dropWhile pyIsSpace = [] := by
    simp [List.dropWhile_eq_nil_iff]
    exact h
  simp [pyStrip, h1]

/-- Claim C1: for every exam name, the `documents` field of the schema
returned by `generate_fallback_schema` equals the template selected by the
linear sequence of substring checks on the lowercased name, in the order
banking ('ibps', 'bank', 'sbi', 'rbi'), SSC ('ssc'), medical/engineering
('neet', 'jee', 'gate'), UPSC ('upsc', 'civil', 'ias', 'ips'), then the
generic template, where the first matching check decides
(`chooseRequirementsLinear` transcribes the claim's wording). -/
theorem C1_linear_template_selection (exam_name now : String) :
    Json.objGet (generate_fallback_schema exam_name now) "documents" =
      some (chooseRequirementsLinear (pyLower exam_name)) := by
  simp [generate_fallback_schema, chooseRequirementsLinear, Json.objGet, lookupKey,
    List.any, Bool.or_assoc]

/-- Claim C2: a request whose JSON body lacks the `examName` field, or whose
`examName` is the empty string, gets HTTP 400 with exactly the body
`{success: false, error}` and no generated schema. -/
theorem C2_missing_exam_name_400 (data : List (String × Json)) (postRaises : Bool)
    (now : String)
    (h : lookupKey data "examName" = none ∨
      lookupKey data "examName" = some (Json.str "")) :
    generate_schema data postRaises now =
      ⟨400, Json.obj [("success", Json.bool false),
        ("error", Json.str "Exam name is required")]⟩ := by
  rcases h with h | h <;> simp [generate_schema, dictGetD, h, pyStrip]

/-- Witness for C2 at the concrete empty body. -/
theorem C2_missing_exam_name_400_witness :
    generate_schema [] false "2024-01-01T00:00:00" =
      ⟨400, Json.obj [("success", Json.bool false),
        ("error", Json.str "Exam name is required")]⟩ :=
  C2_missing_exam_name_400 [] false "2024-01-01T00:00:00" (Or.inl rfl)

/-- Counterexample to C3 as stated: for the concrete request body
`{examName: "neet"}` the success response body is not an object with
exactly the keys `success`, `schema`, `message` — the handler adds a
fourth key `note`. -/
theorem C3_envelope_counterexample :
    Json.keys (generate_schema [("examName", Json.str "neet")] false
        "2024-01-01T00:00:00").body ≠
      ["success", "schema", "message"] := by
  decide

/-- Claim C3 (amended): for every request with an `examName` that is
non-empty after stripping, the handler returns HTTP 200 whose body is the
envelope with exactly the keys `success`, `schema`, `message`, `note`, with
`success` true and `schema` the generated requirement template. -/
theorem C3_success_envelope (data : List (String × Json)) (raw now : String)
    (h : lookupKey data "examName" = some (Json.str raw))
    (hne : pyStrip raw ≠ "") :
    generate_schema data false now =
      ⟨200, Json.obj [
        ("success", Json.bool true),
        ("schema", generate_fallback_schema (pyStrip raw) now),
        ("message", Json.str ("Generated schema for " ++ normalizeExamName (pyStrip raw))),
        ("note", Json.str "Using intelligent pattern matching - real web extraction available via Node.js version")]⟩ := by
  simp [generate_schema, dictGetD, h, hne, Json.objGet, lookupKey, generate_fallback_schema]

/-- Witness for the amended C3 at the concrete body `{examName: "NEET 2024"}`. -/
theorem C3_success_envelope_witness :
    generate_schema [("examName", Json.str "NEET 2024")] false "2024-01-01T00:00:00" =
      ⟨200, Json.obj [
        ("success", Json.bool true),
        ("schema", generate_fallback_schema (pyStrip "NEET 2024") "2024-01-01T00:00:00"),
        ("message", Json.str ("Generated schema for " ++ normalizeExamName (pyStrip "NEET 2024"))),
        ("note", Json.str "Using intelligent pattern matching - real web extraction available via Node.js version")]⟩ :=
  C3_success_envelope [("examName", Json.str "NEET 2024")] "NEET 2024"
    "2024-01-01T00:00:00" rfl (by decide)

/-- Claim C4: when an exception is raised after the missing-input check, the
catch-all `except` branch returns the best-effort basic fallback schema
response with HTTP 200 instead of propagating the error. -/
theorem C4_catch_all_fallback (data : List (String × Json)) (raw now : String)
    (h : lookupKey data "examName" = some (Json.str raw))
    (hne : pyStrip raw ≠ "") :
    generate_schema data true now = exceptResponse data now ∧
    (generate_schema data true now).status = 200 := by
  simp [generate_schema, dictGetD, h, hne, exceptResponse]

/-- Witness for C4 at the concrete body `{examName: "NEET 2024"}` with the
post-check exception raised. -/
theorem C4_catch_all_fallback_witness :
    generate_schema [("examName", Json.str "NEET 2024")] true "2024-01-01T00:00:00" =
      exceptResponse [("examName", Json.str "NEET 2024")] "2024-01-01T00:00:00" ∧
    (generate_schema [("examName", Json.str "NEET 2024")] true
      "2024-01-01T00:00:00").status = 200 :=
  C4_catch_all_fallback [("examName", Json.str "NEET 2024")] "NEET 2024"
    "2024-01-01T00:00:00" rfl (by decide)

/-- Counterexample to C5 as stated: two health-check calls at different
times yield different bodies, because the body embeds the current
timestamp. -/
theorem C5_health_counterexample :
    (health_check "2024-01-01T00:00:00").body ≠
      (health_check "2024-01-01T00:00:01").body := by
  simp [health_check]

/-- Claim C5 (amended): the health endpoint's status code, body keys, and
`status` and `message` fields are identical across any two calls; only the
`timestamp` field varies, holding the call's current time. -/
theorem C5_health_static_except_timestamp (t1 t2 : String) :
    (health_check t1).status = (health_check t2).status ∧
    Json.keys (health_check t1).body = Json.keys (health_check t2).body ∧
    Json.objGet (health_check t1).body "status" =
      Json.objGet (health_check t2).body "status" ∧
    Json.objGet (health_check t1).body "message" =
      Json.objGet (health_check t2).body "message" ∧
    Json.objGet (health_check t1).body "timestamp" = some (Json.str t1) :=
  ⟨rfl, rfl, rfl, rfl, rfl⟩

/-- Claim C6: every schema returned by `generate_fallback_schema` is an
object with exactly the keys `exam`, `documents`, `extractedFrom`,
`extractedAt` in that order, where `exam` is a string, `documents` is an
ordered array, `extractedFrom` is a string tag, and `extractedAt` is the
timestamp. -/
theorem C6_schema_fields (exam_name now : String) :
    Json.keys (generate_fallback_schema exam_name now) =
      ["exam", "documents", "extractedFrom", "extractedAt"] ∧
    Json.objGet (generate_fallback_schema exam_name now) "exam" =
      some (Json.str (normalizeExamName exam_name)) ∧
    (∃ docs, Json.objGet (generate_fallback_schema exam_name now) "documents" =
      some (Json.arr docs)) ∧
    Json.objGet (generate_fallback_schema exam_name now) "extractedFrom" =
      some (Json.str "Intelligent Fallback System") ∧
    Json.objGet (generate_fallback_schema exam_name now) "extractedAt" =
      some (Json.str now) := by
  refine ⟨rfl, rfl, ?_, rfl, rfl⟩
  rw [generate_fallback_schema_documents]
  obtain ⟨docs, hd⟩ := chooseRequirementsLinear_isArr (pyLower exam_name)
  exact ⟨docs, by rw [hd]⟩

/-- Counterexample to C7 as stated: in a run where no export call fails, a
placeholder file is still produced — the LayoutLM placeholder is created
unconditionally, so placeholder creation is not equivalent to export
failure. -/
theorem C7_placeholder_counterexample :
    ¬ ((runProducedFiles false).all (fun f => !f.placeholder) = true) := by
  decide

/-- Claim C7 (amended): the DistilBERT placeholder is created exactly when
the DistilBERT export call fails and a successful export produces the model
artifact instead, while the LayoutLM placeholder is created on every run,
with no LayoutLM export call ever attempted. -/
theorem C7_placeholder_on_failure (exportFails : Bool) :
    (runProducedFiles exportFails).count ⟨"public/models/distilbert.onnx", true⟩ =
      (if exportFails then 1 else 0) ∧
    (runProducedFiles exportFails).count ⟨"public/models/distilbert", false⟩ =
      (if exportFails then 0 else 1) ∧
    (runProducedFiles exportFails).count ⟨"public/models/layoutlm.onnx", true⟩ = 1 ∧
    (scriptMain exportFails).filter
        (fun op => match op with
          | ScriptOp.exportAttempt _ _ => true
          | ScriptOp.touch _ => false) =
      [ScriptOp.exportAttempt "distilbert-base-uncased" "public/models/distilbert"] := by
  cases exportFails <;> exact ⟨by decide, by decide, by decide, by decide⟩

/-- Claim C8: a run of the export script performs the DistilBERT export
attempt exactly once and first, and the LayoutLM placeholder creation
exactly once and last, whether or not the export fails — two sequential
file-producing operations in a fixed order with no retry. -/
theorem C8_two_operations_fixed_order (exportFails : Bool) :
    (scriptMain exportFails).count
        (ScriptOp.exportAttempt "distilbert-base-uncased" "public/models/distilbert") = 1 ∧
    (scriptMain exportFails).count (ScriptOp.touch "public/models/layoutlm.onnx") = 1 ∧
    (scriptMain exportFails).head? =
      some (ScriptOp.exportAttempt "distilbert-base-uncased" "public/models/distilbert") ∧
    (scriptMain exportFails).getLast? =
      some (ScriptOp.touch "public/models/layoutlm.onnx") := by
  cases exportFails <;> exact ⟨by decide, by decide, by decide, by decide⟩

/-- Claim C9: the `exam` field of the returned schema is the normalization
of the input name — hyphens and underscores replaced by spaces, split on
whitespace, each word capitalized, rejoined with single spaces — rather
than the raw input. -/
theorem C9_exam_field_normalized (exam_name now : String) :
    Json.objGet (generate_fallback_schema exam_name now) "exam" =
      some (Json.str (normalizeExamName exam_name)) := rfl

/-- Claim C10: an `examName` consisting only of whitespace characters is
stripped before the emptiness check and is treated like an empty name: the
handler returns the 400 error response. -/
theorem C10_whitespace_only_400 (data : List (String × Json)) (postRaises : Bool)
    (now s : String)
    (h : lookupKey data "examName" = some (Json.str s))
    (hws : ∀ c ∈ s.data, pyIsSpace c = true) :
    generate_schema data postRaises now =
      ⟨400, Json.obj [("success", Json.bool false),
        ("error", Json.str "Exam name is required")]⟩ := by
  simp [generate_schema, dictGetD, h, pyStrip_all_space s hws]

/-- Witness for C10 at the concrete body whose `examName` is three spaces
and a tab. -/
theorem C10_whitespace_only_400_witness :
    generate_schema [("examName", Json.str "   \t")] false "2024-01-01T00:00:00" =
      ⟨400, Json.obj [("success", Json.bool false),
        ("error", Json.str "Exam name is required")]⟩ :=
  C10_whitespace_only_400 [("examName", Json.str "   \t")] false
    "2024-01-01T00:00:00" "   \t" rfl (by decide)
